import Mathlib

/-!
Shallow embedding of the signal generation and validation pipeline of
`run_signals.py`: pip-value lookup, pip-distance computation, symbol
normalization for the quote service, entry-price validation, the
post-response field filling of `call_model_structured`, and its retry loop
with exponential backoff.

Python floats are modelled as rationals (ℚ); `None` as `Option.none`.
The Python substring operator `needle in haystack` is modelled on the
character lists of the strings.
-/

namespace SignalStudy

/-- The Python substring test `needle in haystack`. -/
def strContains (haystack needle : String) : Bool :=
  go needle.toList haystack.toList
where
  go (needle : List Char) : List Char → Bool
    | [] => needle.isEmpty
    | c :: rest => needle.isPrefixOf (c :: rest) || go needle rest

/-- The Python method `str.upper()`.  `Char.toUpper` only uppercases ASCII letters,
which matches Python on the ASCII symbol strings this program handles. -/
def strUpper (s : String) : String :=
  String.mk (s.toList.map Char.toUpper)

/-- The Python builtin `round(x, 2)` (round half to even, modelled on the exact
rational value rather than on the binary double). -/
def round2 (q : ℚ) : ℚ :=
  let s := q * 100
  let f : ℤ := ⌊s⌋
  let frac := s - f
  (if frac < 1 / 2 then (f : ℚ)
   else if 1 / 2 < frac then (f : ℚ) + 1
   else if f % 2 = 0 then (f : ℚ) else (f : ℚ) + 1) / 100

/-- Function `get_pip_value` from `run_signals.py`.  The `pip_values` lookup table in
the Python source is dead code (it is never read); the live logic is the
`if`/`elif` chain below. -/
def get_pip_value (symbol : String) : ℚ :=
  if strContains symbol "JPY" then 1
  else if strContains symbol "XAU" || strContains (strUpper symbol) "GOLD" then 10
  else 1 / 100

/-- Function `calculate_pip_distance` from `run_signals.py`. -/
def calculate_pip_distance (entry current_price : Option ℚ) (symbol : String) :
    Option ℚ :=
  match entry, current_price with
  | some e, some c => some (round2 (|e - c| / get_pip_value symbol))
  | _, _ => none

/-- Function `format_symbol_for_twelvedata` from `run_signals.py`. -/
def format_symbol_for_twelvedata (symbol : String) : String :=
  if symbol = "XAUUSD" then "XAU/USD"
  else if symbol.length = 6 then symbol.take 3 ++ "/" ++ symbol.drop 3
  else if strContains symbol "/" then symbol
  else symbol

/-- One structured model output (the `SIGNAL_SCHEMA` record of
`run_signals.py`); every schema field is required, `entry`, `stop`,
`current_price` and `entry_distance_pips` are nullable numbers. -/
structure SignalRecord where
  symbol : String
  timeframe : String
  timestamp_utc : String
  signal : String
  confidence : ℚ
  entry : Option ℚ
  stop : Option ℚ
  targets : List ℚ
  rationale : String
  invalidation : String
  prompt_name : String
  raw_notes : String
  current_price : Option ℚ
  entry_distance_pips : Option ℚ
  deriving DecidableEq, Repr

/-- The `violation_reason` messages built by `validate_entry_price`.  The
Python code builds f-strings; each constructor carries exactly the data
interpolated into the corresponding message. -/
inductive ViolationReason where
  /-- Message: entry price is null but signal is not HOLD. -/
  | nullEntry
  /-- Message naming the entry, the two-decimal pip distance and the
  current price, and citing the 100 pip limit. -/
  | tooFar (entry pips current_price : ℚ)
  /-- Message naming the entry and calling it unrealistic, non-positive. -/
  | nonPositiveEntry (entry : ℚ)
  deriving DecidableEq, Repr

/-- The warning messages appended to `validation["warnings"]`. -/
inductive ValidationWarning where
  /-- Warning: no current price available for validation. -/
  | noCurrentPrice
  /-- Warning: entry price is null, forcing HOLD. -/
  | nullEntryForcingHold
  /-- Warning naming the two-decimal pip distance and the 100 pip maximum. -/
  | tooFarFromCurrent (pips : ℚ)
  /-- Warning: entry price is non-positive, forcing HOLD. -/
  | nonPositiveForcingHold
  deriving DecidableEq, Repr

/-- The dict returned by `validate_entry_price`. -/
structure ValidationResult where
  valid : Bool
  original_signal : String
  final_signal : String
  violation_reason : Option ViolationReason
  entry_distance_pips : Option ℚ
  current_price : Option ℚ
  warnings : List ValidationWarning
  deriving DecidableEq, Repr

/-- Function `validate_entry_price` from `run_signals.py`, branch for branch. -/
def validate_entry_price (result : SignalRecord) (current_price : Option ℚ)
    (symbol : String) : ValidationResult :=
  let validation : ValidationResult :=
    { valid := true
      original_signal := result.signal
      final_signal := result.signal
      violation_reason := none
      entry_distance_pips := none
      current_price := current_price
      warnings := [] }
  -- If HOLD, no validation needed
  if result.signal = "HOLD" then
    { validation with entry_distance_pips := none }
  else
    match current_price with
    -- If no current price, cannot validate
    | none =>
        { validation with
            warnings := validation.warnings ++ [.noCurrentPrice]
            entry_distance_pips := none }
    | some cp =>
        match result.entry with
        -- If no entry, invalid
        | none =>
            { validation with
                valid := false
                final_signal := "HOLD"
                violation_reason := some .nullEntry
                warnings := validation.warnings ++ [.nullEntryForcingHold] }
        | some entry =>
            let pip_distance := calculate_pip_distance (some entry) (some cp) symbol
            let v1 := { validation with entry_distance_pips := pip_distance }
            -- Check if within 100 pips
            let v2 :=
              match pip_distance with
              | some pd =>
                  if pd > 100 then
                    { v1 with
                        valid := false
                        final_signal := "HOLD"
                        violation_reason := some (.tooFar entry pd cp)
                        warnings := v1.warnings ++ [.tooFarFromCurrent pd] }
                  else v1
              | none => v1
            -- Check if entry is unrealistic (negative or zero)
            if entry ≤ 0 then
              { v2 with
                  valid := false
                  final_signal := "HOLD"
                  violation_reason := some (.nonPositiveEntry entry)
                  warnings := v2.warnings ++ [.nonPositiveForcingHold] }
            else v2

/-- The post-parse field filling of `call_model_structured`
(`run_signals.py` lines 780–791): `prompt_name` and `current_price` are
always overwritten, `symbol`/`timeframe`/`timestamp_utc`/`raw_notes` are
replaced only when the value from the model is falsy (the empty string,
these fields being schema-required strings), and `entry_distance_pips` is
always recomputed from the entry of the model and the fetched reference
price. -/
def fill_fields (data : SignalRecord)
    (prompt_name symbol timeframe timestamp_utc notes : String)
    (current_price : Option ℚ) : SignalRecord :=
  { data with
      prompt_name := prompt_name
      symbol := if data.symbol = "" then symbol else data.symbol
      timeframe := if data.timeframe = "" then timeframe else data.timeframe
      timestamp_utc := if data.timestamp_utc = "" then timestamp_utc
                       else data.timestamp_utc
      raw_notes := if data.raw_notes = "" then notes else data.raw_notes
      current_price := current_price
      entry_distance_pips :=
        calculate_pip_distance data.entry current_price symbol }

/-- Outcome of one attempt of the retry loop in `call_model_structured`: the
`try` body either raises (transport error, empty response, JSON parse
failure) — modelled as `failure` carrying the stringified exception — or
yields the parsed schema-conforming record. -/
inductive AttemptOutcome where
  | failure (err : String)
  | success (data : SignalRecord)
  deriving DecidableEq, Repr

/-- The backoff base of `backoff_sleep`: `base = min(2 ** attempt, 30)`. -/
def backoff_base (attempt : ℕ) : ℚ :=
  min ((2 : ℚ) ^ attempt) 30

/-- The full sleep duration of `backoff_sleep(attempt)`:
`base + random.uniform(0, 0.7)`, with the random draw modelled by the
`jitter` parameter. -/
def backoff_duration (jitter : ℕ → ℚ) (attempt : ℕ) : ℚ :=
  backoff_base attempt + jitter attempt

/-- The retry loop of `call_model_structured`
(`for attempt in range(max_retries)`), recursing on the number of attempts
remaining.  Returns the first successful parse, or after exhausting all
attempts the last observed error (initially `None`); alongside, the list of
sleep durations taken — Python sleeps after a failed attempt only while
`attempt < max_retries - 1`, i.e. while further attempts remain. -/
def retry_aux (outcomes : ℕ → AttemptOutcome) (jitter : ℕ → ℚ) :
    ℕ → ℕ → Option String → List ℚ →
    Except (Option String) SignalRecord × List ℚ
  | _, 0, last_err, sleeps => (.error last_err, sleeps)
  | attempt, remaining + 1, _, sleeps =>
    match outcomes attempt with
    | .success d => (.ok d, sleeps)
    | .failure e =>
        retry_aux outcomes jitter (attempt + 1) remaining (some e)
          (if 0 < remaining then sleeps ++ [backoff_duration jitter attempt]
           else sleeps)

/-- Function `call_model_structured` from `run_signals.py`, with the model responses
abstracted as the `outcomes` sequence: run the retry loop and, on success,
apply the post-parse field filling before returning.  An `.error` result
models the terminal `RuntimeError` raised after `max_retries` failures,
carrying `last_err`. -/
def call_model_structured (outcomes : ℕ → AttemptOutcome) (jitter : ℕ → ℚ)
    (prompt_name symbol timeframe timestamp_utc notes : String)
    (current_price : Option ℚ) (max_retries : ℕ) :
    Except (Option String) SignalRecord × List ℚ :=
  match retry_aux outcomes jitter 0 max_retries none [] with
  | (.ok d, sleeps) =>
      (.ok (fill_fields d prompt_name symbol timeframe timestamp_utc notes
              current_price),
        sleeps)
  | (.error e, sleeps) => (.error e, sleeps)

/-- How `main` applies a validation result to a record
(`run_signals.py` lines 914–925): when invalid, the `signal` field of the
record is
overwritten with `final_signal`; all other record fields — in particular
`entry_distance_pips` — are left as the requester produced them. -/
def apply_validation (result : SignalRecord) (validation : ValidationResult) :
    SignalRecord :=
  if validation.valid then result
  else { result with signal := validation.final_signal }

/-- The per-(symbol, prompt) pipeline on a successfully parsed model
response: SignalRequester field filling, then EntryValidator, then the
write-back of the override done by `main`.  Returns the persisted record and the attached
validation result. -/
def pipeline (parsed : SignalRecord)
    (prompt_name symbol timeframe timestamp_utc notes : String)
    (current_price : Option ℚ) : SignalRecord × ValidationResult :=
  let filled := fill_fields parsed prompt_name symbol timeframe timestamp_utc
    notes current_price
  let v := validate_entry_price filled current_price symbol
  (apply_validation filled v, v)

/-- Function `pipValue` read literally from the wording of claim C2, with
both substring matches case-sensitive, for comparison with the
`get_pip_value` of the source. -/
def pip_value_claimed (symbol : String) : ℚ :=
  if strContains symbol "JPY" then 1
  else if strContains symbol "XAU" || strContains symbol "GOLD" then 10
  else 1 / 100

/-- Rounding to two decimals is the identity on integer values. -/
lemma round2_int (n : ℤ) : round2 (n : ℚ) = n := by
  have h : ((n : ℚ) * 100) = ((n * 100 : ℤ) : ℚ) := by push_cast; ring
  simp only [round2, h, Int.floor_intCast, sub_self]
  norm_num

/-! Sample records used to instantiate the theorems below. -/

/-- A BUY record with a null entry (spec Scenario C). -/
def recNullEntry : SignalRecord :=
  { symbol := "EURUSD", timeframe := "5m", timestamp_utc := "t"
    signal := "BUY", confidence := 1 / 2, entry := none, stop := none
    targets := [], rationale := "", invalidation := "", prompt_name := "p"
    raw_notes := "", current_price := none, entry_distance_pips := none }

/-- A SELL record with entry 1.0900 (spec Scenario D). -/
def recSell : SignalRecord :=
  { symbol := "EURUSD", timeframe := "5m", timestamp_utc := "t"
    signal := "SELL", confidence := 1 / 2, entry := some (109 / 100)
    stop := none, targets := [], rationale := "", invalidation := ""
    prompt_name := "p", raw_notes := "", current_price := none
    entry_distance_pips := none }

/-- A BUY record with entry 1.1200 on EURUSD (spec Scenario B). -/
def recScenarioB : SignalRecord :=
  { symbol := "EURUSD", timeframe := "5m", timestamp_utc := "t"
    signal := "BUY", confidence := 1 / 2, entry := some (28 / 25)
    stop := none, targets := [], rationale := "", invalidation := ""
    prompt_name := "p", raw_notes := "", current_price := none
    entry_distance_pips := none }

/-- A BUY record with a negative entry. -/
def recNegEntry : SignalRecord :=
  { symbol := "EURUSD", timeframe := "5m", timestamp_utc := "t"
    signal := "BUY", confidence := 1 / 2, entry := some (-10)
    stop := none, targets := [], rationale := "", invalidation := ""
    prompt_name := "p", raw_notes := "", current_price := none
    entry_distance_pips := none }

/-- A HOLD record on which the model nevertheless supplied an entry,
with the context fields left empty. -/
def recHold : SignalRecord :=
  { symbol := "", timeframe := "", timestamp_utc := ""
    signal := "HOLD", confidence := 1 / 2, entry := some (11 / 10)
    stop := none, targets := [], rationale := "", invalidation := ""
    prompt_name := "", raw_notes := "", current_price := none
    entry_distance_pips := none }

/-- Evaluation helper: on "EURUSD" the pip distance is 100·|entry − price|
whenever that value is a whole number of pips. -/
lemma pip_distance_eurusd (e c : ℚ) (n : ℤ) (h : |e - c| * 100 = (n : ℚ)) :
    calculate_pip_distance (some e) (some c) "EURUSD" = some (n : ℚ) := by
  have h1 : strContains "EURUSD" "JPY" = false := by decide
  have h2 : strContains "EURUSD" "XAU" = false := by decide
  have h3 : strContains (strUpper "EURUSD") "GOLD" = false := by decide
  have hpip : get_pip_value "EURUSD" = 1 / 100 := by
    simp [get_pip_value, h1, h2, h3]
  have hdiv : |e - c| / get_pip_value "EURUSD" = (n : ℚ) := by
    rw [hpip, one_div, div_inv_eq_mul, h]
  simp [calculate_pip_distance, hdiv, round2_int]

/-- C4: For every record, reference price, and symbol, whenever
`validate_entry_price` returns `valid == false` the `final_signal` is
"HOLD" and (the original signal not being "HOLD") differs from
`original_signal`; `original_signal` always equals the signal as
received. -/
theorem c4_invalid_forces_hold (r : SignalRecord) (cp : Option ℚ)
    (s : String) :
    ((validate_entry_price r cp s).valid = false →
      (validate_entry_price r cp s).final_signal = "HOLD") ∧
    ((validate_entry_price r cp s).valid = false →
      (validate_entry_price r cp s).original_signal ≠ "HOLD" →
      (validate_entry_price r cp s).final_signal ≠
        (validate_entry_price r cp s).original_signal) ∧
    (validate_entry_price r cp s).original_signal = r.signal := by
  unfold validate_entry_price
  by_cases hs : r.signal = "HOLD"
  · simp [hs]
  · cases cp with
    | none => simp [hs]
    | some c =>
      cases he : r.entry with
      | none =>
        simp [hs, he]
        exact fun h => hs h.symm
      | some e =>
        simp only [hs, he, if_false, ite_false]
        cases hpd : calculate_pip_distance (some e) (some c) s with
        | none => simp only [hpd]; split_ifs <;> simp_all [eq_comm]
        | some pd => simp only [hpd]; split_ifs <;> simp_all [eq_comm]

/-- Witness for C4 at Scenario C: a BUY record with a null entry and a
present reference price is invalidated, its final signal is "HOLD" and
differs from the original "BUY". -/
theorem c4_invalid_forces_hold_witness :
    (validate_entry_price recNullEntry (some 1) "EURUSD").final_signal =
      "HOLD" ∧
    (validate_entry_price recNullEntry (some 1) "EURUSD").final_signal ≠
      (validate_entry_price recNullEntry (some 1) "EURUSD").original_signal ∧
    (validate_entry_price recNullEntry (some 1) "EURUSD").original_signal =
      recNullEntry.signal := by
  have h := c4_invalid_forces_hold recNullEntry (some 1) "EURUSD"
  have hv : (validate_entry_price recNullEntry (some 1) "EURUSD").valid =
      false := by
    simp [validate_entry_price, recNullEntry]
  have ho :
      ValidationResult.original_signal
        (validate_entry_price recNullEntry (some 1) "EURUSD") = "BUY" := by
    simp [validate_entry_price, recNullEntry]
  exact ⟨h.1 hv, h.2.1 hv (by rw [ho]; decide), h.2.2⟩

/-- C5 (amended): for every record with a non-HOLD signal and an absent
reference price, `validate_entry_price` returns valid, with a null pip
distance, exactly one warning, and the signal unchanged — and (amendment)
this branch is terminal, so the later checks are skipped entirely. -/
theorem c5_missing_reference_price (r : SignalRecord) (s : String)
    (hs : r.signal ≠ "HOLD") :
    validate_entry_price r none s =
      { valid := true, original_signal := r.signal, final_signal := r.signal
        violation_reason := none, entry_distance_pips := none
        current_price := none, warnings := [.noCurrentPrice] } := by
  unfold validate_entry_price
  simp [hs]

/-- Witness for C5 at Scenario D: a SELL record with entry 1.0900 and no
reference price stays valid with a null distance, one warning, and its
signal unchanged. -/
theorem c5_missing_reference_price_witness :
    validate_entry_price recSell none "EURUSD" =
      { valid := true, original_signal := "SELL", final_signal := "SELL"
        violation_reason := none, entry_distance_pips := none
        current_price := none, warnings := [.noCurrentPrice] } :=
  c5_missing_reference_price recSell "EURUSD" (by decide)

/-- Counterexample to C5 as stated: with the reference price absent, the
null-entry check does NOT still apply — a BUY record with a null entry is
left valid with no violation reason, because the missing-reference branch
returns immediately. -/
theorem c5_counterexample :
    recNullEntry.signal = "BUY" ∧ recNullEntry.entry = none ∧
    (validate_entry_price recNullEntry none "EURUSD").valid = true ∧
    (validate_entry_price recNullEntry none "EURUSD").violation_reason =
      none := by
  refine ⟨rfl, rfl, ?_, ?_⟩ <;> simp [validate_entry_price, recNullEntry]

/-- C7: the post-parse field filling always overwrites `prompt_name` and
`current_price`, fills `symbol`/`timeframe`/`timestamp_utc`/`raw_notes`
from the caller only when the model left them empty, always recomputes
`entry_distance_pips` from the entry of the model and the reference
price, and
changes no other field. -/
theorem c7_fill_fields_frame (d : SignalRecord)
    (pn s tf ts notes : String) (cp : Option ℚ) :
    (fill_fields d pn s tf ts notes cp).prompt_name = pn ∧
    (fill_fields d pn s tf ts notes cp).current_price = cp ∧
    (fill_fields d pn s tf ts notes cp).symbol =
      (if d.symbol = "" then s else d.symbol) ∧
    (fill_fields d pn s tf ts notes cp).timeframe =
      (if d.timeframe = "" then tf else d.timeframe) ∧
    (fill_fields d pn s tf ts notes cp).timestamp_utc =
      (if d.timestamp_utc = "" then ts else d.timestamp_utc) ∧
    (fill_fields d pn s tf ts notes cp).raw_notes =
      (if d.raw_notes = "" then notes else d.raw_notes) ∧
    (fill_fields d pn s tf ts notes cp).entry_distance_pips =
      calculate_pip_distance d.entry cp s ∧
    (fill_fields d pn s tf ts notes cp).signal = d.signal ∧
    (fill_fields d pn s tf ts notes cp).confidence = d.confidence ∧
    (fill_fields d pn s tf ts notes cp).entry = d.entry ∧
    (fill_fields d pn s tf ts notes cp).stop = d.stop ∧
    (fill_fields d pn s tf ts notes cp).targets = d.targets ∧
    (fill_fields d pn s tf ts notes cp).rationale = d.rationale ∧
    (fill_fields d pn s tf ts notes cp).invalidation = d.invalidation := by
  repeat' constructor

/-- C10: the "JPY" substring check takes precedence over the "XAU"/"GOLD"
check ("XAUJPY" yields 1.00); "XAU" and "JPY" are matched case-sensitively
while "GOLD" is matched against the uppercased symbol ("xauusd" yields
0.01 while "gold" yields 10.00); and the pip value is always one of
exactly 1.00, 10.00 and 0.01. -/
theorem c10_pip_value_precedence :
    (∀ s, strContains s "JPY" = true → get_pip_value s = 1) ∧
    get_pip_value "XAUJPY" = 1 ∧
    get_pip_value "xauusd" = 1 / 100 ∧
    get_pip_value "gold" = 10 ∧
    (∀ s, get_pip_value s = 1 ∨ get_pip_value s = 10 ∨
      get_pip_value s = 1 / 100) := by
  refine ⟨fun s h => by simp [get_pip_value, h], ?_, ?_, ?_, fun s => ?_⟩
  · have h : strContains "XAUJPY" "JPY" = true := by decide
    simp [get_pip_value, h]
  · have h1 : strContains "xauusd" "JPY" = false := by decide
    have h2 : strContains "xauusd" "XAU" = false := by decide
    have h3 : strContains (strUpper "xauusd") "GOLD" = false := by decide
    simp [get_pip_value, h1, h2, h3]
  · have h1 : strContains "gold" "JPY" = false := by decide
    have h2 : strContains (strUpper "gold") "GOLD" = true := by decide
    simp [get_pip_value, h1, h2]
  · unfold get_pip_value
    split_ifs <;> simp

/-- Witness for the universally quantified parts of C10: EURJPY contains
"JPY" and gets pip value 1.00. -/
theorem c10_pip_value_precedence_witness :
    get_pip_value "EURJPY" = 1 :=
  c10_pip_value_precedence.1 "EURJPY" (by decide)

/-- C1 (code evaluation at the claimed input): for the Scenario B record —
signal BUY, entry 1.1200, reference price 1.1000, symbol "EURUSD" — the
code computes a pip distance of 2.0 (not 200.0), leaves the record valid,
and performs no HOLD override and records no violation reason. -/
theorem c1_scenario_b_code_eval :
    validate_entry_price recScenarioB (some (11 / 10)) "EURUSD" =
      { valid := true, original_signal := "BUY", final_signal := "BUY"
        violation_reason := none, entry_distance_pips := some 2
        current_price := some (11 / 10), warnings := [] } := by
  have hcalc : calculate_pip_distance (some (28 / 25)) (some (11 / 10))
      "EURUSD" = some ((2 : ℤ) : ℚ) := by
    refine pip_distance_eurusd _ _ _ ?_
    rw [show (28 : ℚ) / 25 - 11 / 10 = 1 / 50 by norm_num,
      abs_of_pos (by norm_num)]
    norm_num
  unfold validate_entry_price
  simp [recScenarioB, hcalc]
  norm_num

/-- C2 (amended): the pip distance is |entry − reference| / pipValue
rounded to two decimals, where pipValue is positive and, decided in
order: symbols containing "JPY" yield 1.00; otherwise symbols containing
"XAU", or containing "GOLD" case-insensitively, yield 10.00; all other
symbols yield 0.01. -/
theorem c2_pip_distance_formula (e c : ℚ) (s : String) :
    calculate_pip_distance (some e) (some c) s =
      some (round2 (|e - c| / get_pip_value s)) ∧
    0 < get_pip_value s ∧
    (strContains s "JPY" = true → get_pip_value s = 1) ∧
    (strContains s "JPY" = false →
      (strContains s "XAU" || strContains (strUpper s) "GOLD") = true →
      get_pip_value s = 10) ∧
    (strContains s "JPY" = false → strContains s "XAU" = false →
      strContains (strUpper s) "GOLD" = false →
      get_pip_value s = 1 / 100) := by
  refine ⟨rfl, ?_, fun h => by simp [get_pip_value, h],
    fun h1 h2 => by simp [get_pip_value, h1, h2],
    fun h1 h2 h3 => by simp [get_pip_value, h1, h2, h3]⟩
  unfold get_pip_value
  split_ifs <;> norm_num

/-- Witness for C2 at the Scenario A symbol: on EURUSD the distance is
computed by the formula and the pip value is the 0.01 default. -/
theorem c2_pip_distance_formula_witness :
    calculate_pip_distance (some (1105 / 1000)) (some (11 / 10)) "EURUSD" =
      some (round2 (|(1105 / 1000 : ℚ) - 11 / 10| /
        get_pip_value "EURUSD")) ∧
    0 < get_pip_value "EURUSD" ∧ get_pip_value "EURUSD" = 1 / 100 := by
  have h := c2_pip_distance_formula (1105 / 1000) (11 / 10) "EURUSD"
  exact ⟨h.1, h.2.1, h.2.2.2.2 (by decide) (by decide) (by decide)⟩

/-- Counterexample to C2 as stated: the symbol "gold" contains none of
JPY, XAU, GOLD as literal substrings, so the clause of the claim saying
all other symbols yield 0.01 assigns it 0.01, yet the code — which matches
"GOLD" against the uppercased symbol — returns 10.00. -/
theorem c2_counterexample :
    get_pip_value "gold" = 10 ∧ pip_value_claimed "gold" = 1 / 100 ∧
    get_pip_value "gold" ≠ pip_value_claimed "gold" := by
  have h1 : strContains "gold" "JPY" = false := by decide
  have h2 : strContains (strUpper "gold") "GOLD" = true := by decide
  have h3 : strContains "gold" "XAU" = false := by decide
  have h4 : strContains "gold" "GOLD" = false := by decide
  have hc : get_pip_value "gold" = 10 := by simp [get_pip_value, h1, h2]
  have hs : pip_value_claimed "gold" = 1 / 100 := by
    simp [pip_value_claimed, h1, h3, h4]
  refine ⟨hc, hs, ?_⟩
  rw [hc, hs]
  norm_num

/-- C3 (amended): for every parsed record whose signal is HOLD, the
validator leaves it valid with a null pip distance in the validation
result and the persisted signal stays HOLD — but the `entry_distance_pips`
field of the persisted record, filled by the requester, equals the
recomputed distance and is therefore null only when the entry from the
model or the reference price is null. -/
theorem c3_hold_pipeline (parsed : SignalRecord)
    (pn s tf ts notes : String) (cp : Option ℚ)
    (h : parsed.signal = "HOLD") :
    (pipeline parsed pn s tf ts notes cp).2.valid = true ∧
    (pipeline parsed pn s tf ts notes cp).2.entry_distance_pips = none ∧
    (pipeline parsed pn s tf ts notes cp).1.signal = "HOLD" ∧
    (pipeline parsed pn s tf ts notes cp).1.entry_distance_pips =
      calculate_pip_distance parsed.entry cp s := by
  unfold pipeline apply_validation validate_entry_price fill_fields
  simp [h]

/-- Witness for C3 (amended) at a concrete HOLD record with an entry and a
present reference price. -/
theorem c3_hold_pipeline_witness :
    (pipeline recHold "p" "EURUSD" "5m" "t" "" (some (11 / 10))).2.valid =
      true ∧
    (pipeline recHold "p" "EURUSD" "5m" "t" ""
      (some (11 / 10))).2.entry_distance_pips = none ∧
    (pipeline recHold "p" "EURUSD" "5m" "t" "" (some (11 / 10))).1.signal =
      "HOLD" ∧
    (pipeline recHold "p" "EURUSD" "5m" "t" ""
      (some (11 / 10))).1.entry_distance_pips =
      calculate_pip_distance recHold.entry (some (11 / 10)) "EURUSD" :=
  c3_hold_pipeline recHold "p" "EURUSD" "5m" "t" "" (some (11 / 10)) rfl

/-- Counterexample to C3 as stated: a HOLD record for which the model
supplied entry 1.1000 and the reference price is 1.1000 leaves the
pipeline with `entry_distance_pips = 0.0`, not null — the requester fills
the field regardless of the signal. -/
theorem c3_counterexample :
    recHold.signal = "HOLD" ∧
    (pipeline recHold "p" "EURUSD" "5m" "t" "" (some (11 / 10))).1.signal =
      "HOLD" ∧
    (pipeline recHold "p" "EURUSD" "5m" "t" ""
      (some (11 / 10))).1.entry_distance_pips = some 0 ∧
    (pipeline recHold "p" "EURUSD" "5m" "t" ""
      (some (11 / 10))).1.entry_distance_pips ≠ none := by
  have hcalc : calculate_pip_distance (some (11 / 10)) (some (11 / 10))
      "EURUSD" = some ((0 : ℤ) : ℚ) := by
    refine pip_distance_eurusd _ _ _ ?_
    norm_num
  refine ⟨rfl, ?_, ?_, ?_⟩ <;>
    simp [pipeline, apply_validation, validate_entry_price, fill_fields,
      recHold, hcalc]

/-- C8 (amended): every 6-character symbol is split into a 3+3 slashed
pair (so in particular "XAUUSD" maps to "XAU/USD"), and every
already-slashed input whose length is not 6 passes through unchanged. -/
theorem c8_format_symbol (s : String) :
    (s.length = 6 →
      format_symbol_for_twelvedata s = s.take 3 ++ "/" ++ s.drop 3) ∧
    format_symbol_for_twelvedata "XAUUSD" = "XAU/USD" ∧
    (s.length ≠ 6 → strContains s "/" = true →
      format_symbol_for_twelvedata s = s) := by
  refine ⟨fun h6 => ?_, by decide, fun h6 hslash => ?_⟩
  · unfold format_symbol_for_twelvedata
    by_cases hx : s = "XAUUSD"
    · subst hx; decide
    · simp [hx, h6]
  · unfold format_symbol_for_twelvedata
    have hx : s ≠ "XAUUSD" := by
      intro hs
      subst hs
      exact h6 (by decide)
    simp [hx, h6, hslash]

/-- Witness for C8: "EURUSD" is split into "EUR/USD" and the 7-character
"EUR/USD" passes through unchanged. -/
theorem c8_format_symbol_witness :
    format_symbol_for_twelvedata "EURUSD" =
      "EURUSD".take 3 ++ "/" ++ "EURUSD".drop 3 ∧
    format_symbol_for_twelvedata "EUR/USD" = "EUR/USD" :=
  ⟨(c8_format_symbol "EURUSD").1 (by decide),
    (c8_format_symbol "EUR/USD").2.2 (by decide) (by decide)⟩

/-- Counterexample to C8 as stated: the already-slashed 6-character input
"EU/USD" is not passed through unchanged — the length-6 branch fires
first and produces "EU//USD". -/
theorem c8_counterexample :
    strContains "EU/USD" "/" = true ∧
    format_symbol_for_twelvedata "EU/USD" = "EU//USD" ∧
    format_symbol_for_twelvedata "EU/USD" ≠ "EU/USD" := by decide

/-- C9: when both the over-100-pips check and the non-positive-entry check
fire, the final violation reason is the non-positive-entry message (the
check executed last), while the warnings list accumulates one warning from
each triggered check, in execution order. -/
theorem c9_last_reason_wins (r : SignalRecord) (c e pd : ℚ) (s : String)
    (hs : r.signal ≠ "HOLD") (he : r.entry = some e) (he0 : e ≤ 0)
    (hpd : calculate_pip_distance (some e) (some c) s = some pd)
    (h100 : 100 < pd) :
    validate_entry_price r (some c) s =
      { valid := false, original_signal := r.signal, final_signal := "HOLD"
        violation_reason := some (.nonPositiveEntry e)
        entry_distance_pips := some pd, current_price := some c
        warnings := [.tooFarFromCurrent pd, .nonPositiveForcingHold] } := by
  unfold validate_entry_price
  simp only [hs, he, if_false, ite_false, hpd]
  simp [h100, he0, hpd]

/-- Witness for C9: a BUY record with entry −10 against reference price
100 on "EURUSD" is 11000 pips away and non-positive; the recorded reason
is the non-positive one and both warnings appear. -/
theorem c9_last_reason_wins_witness :
    validate_entry_price recNegEntry (some 100) "EURUSD" =
      { valid := false, original_signal := "BUY", final_signal := "HOLD"
        violation_reason := some (.nonPositiveEntry (-10))
        entry_distance_pips := some 11000, current_price := some 100
        warnings := [.tooFarFromCurrent 11000, .nonPositiveForcingHold] } := by
  have hcalc : calculate_pip_distance (some (-10)) (some 100) "EURUSD" =
      some ((11000 : ℤ) : ℚ) := by
    refine pip_distance_eurusd _ _ _ ?_
    rw [show (-10 : ℚ) - 100 = -110 by norm_num, abs_neg,
      abs_of_pos (by norm_num)]
    norm_num
  have h := c9_last_reason_wins recNegEntry 100 (-10) 11000 "EURUSD"
    (by decide) rfl (by norm_num) (by rw [hcalc]; norm_num) (by norm_num)
  rw [h]
  simp [recNegEntry]

/-- An attempt sequence with four consecutive failures followed by a
successful parse (spec Scenario E). -/
def outcomesFourFailures : ℕ → AttemptOutcome := fun n =>
  if n = 4 then .success recSell else .failure "err"

/-- A jitter draw of zero at every attempt. -/
def zeroJitter : ℕ → ℚ := fun _ => 0

/-- C6: with a 5-attempt budget, the requester returns the (field-filled)
parsed record on the first successful response — in particular after 4
consecutive failures a 5th valid one is returned — and after 5 consecutive
failures it fails terminally carrying the last observed error; between
failed attempts it sleeps `min(2^attempt, 30)` seconds plus the jitter
draw, and does not sleep after the final failed attempt. -/
theorem c6_retry_budget (out : ℕ → AttemptOutcome) (jit : ℕ → ℚ)
    (d : SignalRecord) (e0 e1 e2 e3 e4 : String)
    (pn s tf ts notes : String) (cp : Option ℚ)
    (h0 : out 0 = .failure e0) (h1 : out 1 = .failure e1)
    (h2 : out 2 = .failure e2) (h3 : out 3 = .failure e3) :
    (out 4 = .success d →
      call_model_structured out jit pn s tf ts notes cp 5 =
        (.ok (fill_fields d pn s tf ts notes cp),
          [min ((2 : ℚ) ^ 0) 30 + jit 0, min ((2 : ℚ) ^ 1) 30 + jit 1,
           min ((2 : ℚ) ^ 2) 30 + jit 2, min ((2 : ℚ) ^ 3) 30 + jit 3])) ∧
    (out 4 = .failure e4 →
      call_model_structured out jit pn s tf ts notes cp 5 =
        (.error (some e4),
          [min ((2 : ℚ) ^ 0) 30 + jit 0, min ((2 : ℚ) ^ 1) 30 + jit 1,
           min ((2 : ℚ) ^ 2) 30 + jit 2, min ((2 : ℚ) ^ 3) 30 + jit 3])) := by
  constructor <;> intro h4 <;>
    simp [call_model_structured, retry_aux, h0, h1, h2, h3, h4,
      backoff_duration, backoff_base]

/-- Witness for C6: the concrete Scenario E run — four failures, then a
valid record — returns that record after backoff sleeps of 1, 2, 4 and 8
seconds (zero jitter). -/
theorem c6_retry_budget_witness :
    call_model_structured outcomesFourFailures zeroJitter "p" "EURUSD"
      "5m" "t" "" none 5 =
      (.ok (fill_fields recSell "p" "EURUSD" "5m" "t" "" none),
        [min ((2 : ℚ) ^ 0) 30 + zeroJitter 0,
         min ((2 : ℚ) ^ 1) 30 + zeroJitter 1,
         min ((2 : ℚ) ^ 2) 30 + zeroJitter 2,
         min ((2 : ℚ) ^ 3) 30 + zeroJitter 3]) :=
  (c6_retry_budget outcomesFourFailures zeroJitter recSell "err" "err"
    "err" "err" "err" "p" "EURUSD" "5m" "t" "" none
    rfl rfl rfl rfl).1 rfl

end SignalStudy
